import Mathlib

/-!
Verification of the stateless HTTP transport adapter and the credential
injection middleware of the mcp-grafana bridge.

The definitions below are a shallow embedding of
`src/mcp_grafana/transports/http.py` and `src/mcp_grafana/middleware.py`:

* JSON-RPC messages are the tagged union `Msg`; serialization with
  `model_dump(by_alias=True, mode="json", exclude_none=True)` is `Msg.dump`
  with its Boolean flag set (nulls for absent optional fields are omitted).
* the engine-to-client memory stream (`write_stream_reader`) is `EngineChan`:
  a FIFO list of pending messages plus a closed flag; receiving on an empty
  closed stream raises anyio's end-of-stream error, receiving on an empty
  open stream blocks.
* the function `initialize` of `transports/http.py` is embedded as
  `bootstrapSession` (the Python name is not usable here); the inner
  `handle_post_message` closure of `handle_message`, including its
  `try/finally` that closes the adapter's two stream ends, is
  `handlePostMessage`.
* the context-variable machinery (`grafana_settings` / `grafana_client`
  with `set` returning a token and `reset(token)` restoring the prior
  value) is `ContextVar.set` / `ContextVar.reset`; the two ASGI
  middlewares are `GrafanaAuthMiddleware.call` (from `transports/http.py`)
  and `Middleware.GrafanaMiddleware` (from `middleware.py`).
-/

/-- A JSON value, the target of `model_dump(mode="json")`. -/
inductive Json where
  | null
  | bool (b : Bool)
  | num (n : Int)
  | str (s : String)
  | arr (elems : List Json)
  | obj (fields : List (String × Json))

/-- One optional field of a dump: pydantic's `exclude_none=True` drops the
key entirely when the value is `None`, otherwise it is serialized as null. -/
def optField (name : String) (v : Option Json) (excludeNone : Bool) :
    List (String × Json) :=
  match v with
  | some j => [(name, j)]
  | none => if excludeNone then [] else [(name, Json.null)]

/-- The `JSONRPCMessage` root union of the mcp types: a request carries an id
and a method, a notification only a method, a response an id and a result,
an error an id and an error object (code, message, optional data). -/
inductive Msg where
  | request (id : Int) (method : String) (params : Option Json)
  | notification (method : String) (params : Option Json)
  | response (id : Int) (result : Json)
  | error (id : Int) (code : Int) (message : String) (data : Option Json)

/-- Serialization of a message, `model_dump(by_alias=True, mode="json")`,
with `excludeNone` mirroring the `exclude_none=True` keyword: optional
fields that are absent are omitted instead of appearing as null. -/
def Msg.dump (m : Msg) (excludeNone : Bool) : Json :=
  match m with
  | .request id method params =>
      .obj ([("jsonrpc", .str "2.0"), ("id", .num id), ("method", .str method)]
        ++ optField "params" params excludeNone)
  | .notification method params =>
      .obj ([("jsonrpc", .str "2.0"), ("method", .str method)]
        ++ optField "params" params excludeNone)
  | .response id result =>
      .obj [("jsonrpc", .str "2.0"), ("id", .num id), ("result", result)]
  | .error id code message data =>
      .obj [("jsonrpc", .str "2.0"), ("id", .num id),
            ("error", .obj ([("code", .num code), ("message", .str message)]
              ++ optField "data" data excludeNone))]

/-- The engine-to-client stream (`write_stream_reader` in the source): the
queue of messages the engine task has produced, in send order, and whether
the engine side has been closed after them. -/
structure EngineChan where
  replies : List Msg
  closed : Bool

/-- Outcome of one `receive()` on the engine-to-client stream. -/
inductive RecvOutcome where
  | msg (m : Msg)
  | endOfStream
  | blocks

/-- One `await write_stream_reader.receive()`: the next queued message if
any; on an exhausted closed stream anyio raises `EndOfStream`; on an
exhausted open stream the zero-buffer memory stream blocks. -/
def EngineChan.recv : EngineChan → RecvOutcome × EngineChan
  | ⟨m :: rest, c⟩ => (.msg m, ⟨rest, c⟩)
  | ⟨[], true⟩ => (.endOfStream, ⟨[], true⟩)
  | ⟨[], false⟩ => (.blocks, ⟨[], false⟩)

/-- `LATEST_PROTOCOL_VERSION` of the mcp types package. -/
def latestProtocolVersion : String := "2024-11-05"

/-- The params of the synthesized initialize request: protocol version,
capability negotiation (all sub-capabilities absent, dumped as nulls since
the source does not pass `exclude_none` here), and client identity. -/
def bootstrapParams : Json :=
  .obj [("protocolVersion", .str latestProtocolVersion),
        ("capabilities", .obj [("experimental", Json.null),
                               ("roots", Json.null),
                               ("sampling", Json.null)]),
        ("clientInfo", .obj [("name", Json.str "mcp-grafana"),
                             ("version", Json.str "0.1.2")])]

/-- The `JSONRPCRequest` the bootstrap sends: `jsonrpc="2.0"`, the fixed
correlation id 1, method "initialize", and `bootstrapParams`. -/
def bootstrapRequestMsg : Msg := .request 1 "initialize" (some bootstrapParams)

/-- The `JSONRPCNotification` the bootstrap sends second: method
"notifications/initialized" with absent params. -/
def initializedNotificationMsg : Msg :=
  .notification "notifications/initialized" none

/-- Outcome of running the bootstrap: the handshake receive either got a
message, raised end-of-stream, or blocked forever. -/
inductive BootOutcome where
  | ok
  | endOfStream
  | blocks

/-- Embedding of `initialize` from `transports/http.py`: send the
initialize request on the client-to-engine stream, await one message on the
engine-to-client stream and discard it (no inspection of its kind or id),
then send the initialized notification awaiting nothing. The second
component is the engine-to-client stream afterwards; the third is the list
of messages sent to the engine, in send order. -/
def bootstrapSession (chan : EngineChan) :
    BootOutcome × EngineChan × List Msg :=
  match chan.recv with
  | (.msg _, chan1) =>
      (.ok, chan1, [bootstrapRequestMsg, initializedNotificationMsg])
  | (.endOfStream, chan1) => (.endOfStream, chan1, [bootstrapRequestMsg])
  | (.blocks, chan1) => (.blocks, chan1, [bootstrapRequestMsg])

/-- The method and path of the ASGI scope, as consulted by the handler. -/
structure HttpScope where
  method : String
  path : String

/-- The scope of a well-formed RPC post: `POST /mcp`. -/
def postScope : HttpScope := ⟨"POST", "/mcp"⟩

/-- Outcome of `request.json()` followed by
`types.JSONRPCMessage.model_validate(json)`, the two external decoding
steps the handler branches on: the body failed to parse
(`JSONDecodeError`), parsed but failed schema validation
(`ValidationError` with its message), or produced a validated message. -/
inductive BodyOutcome where
  | parseError
  | invalid (err : String)
  | valid (m : Msg)

/-- An HTTP response body: plain text or JSON. -/
inductive RespBody where
  | text (s : String)
  | json (j : Json)

/-- How the handler coroutine ends: an HTTP response was sent; an exception
(the end-of-stream error of a receive on a closed stream) propagated out;
or it is blocked forever on a receive. -/
inductive Outcome where
  | response (status : Nat) (body : RespBody)
  | exn
  | hangs

/-- The observable effects of one run of the handler: how it ended, the
messages written to the client-to-engine stream in order, the
engine-to-client stream afterwards, and whether each of the adapter's two
stream ends (`read_stream_writer`, `write_stream_reader`) was closed. -/
structure HandlerResult where
  outcome : Outcome
  sent : List Msg
  chan : EngineChan
  readWriterClosed : Bool
  writeReaderClosed : Bool

/-- Embedding of the `handle_post_message` closure of `handle_message` in
`transports/http.py`, including its `try/finally`: reject non-POST with
405 and wrong paths with 404; return 400 on parse or validation failure;
otherwise run the bootstrap, forward the validated message, and answer 202
for notifications or 200 with the engine's next reply (dumped with
`exclude_none=True`) for everything else. The `finally` closes both
adapter stream ends on every path on which the coroutine ends; only a
receive that blocks forever keeps them open, since the `finally` is then
never reached. -/
def handlePostMessage (scope : HttpScope) (body : BodyOutcome)
    (chan : EngineChan) : HandlerResult :=
  if scope.method ≠ "POST" then
    { outcome := .response 405 (.text "Method not allowed"), sent := [],
      chan := chan, readWriterClosed := true, writeReaderClosed := true }
  else if scope.path ≠ "/mcp" then
    { outcome := .response 404 (.text "Not found"), sent := [],
      chan := chan, readWriterClosed := true, writeReaderClosed := true }
  else
    match body with
    | .parseError =>
        { outcome := .response 400 (.text "Could not parse message"),
          sent := [], chan := chan,
          readWriterClosed := true, writeReaderClosed := true }
    | .invalid err =>
        { outcome := .response 400 (.text ("Invalid message: " ++ err)),
          sent := [], chan := chan,
          readWriterClosed := true, writeReaderClosed := true }
    | .valid m =>
        match bootstrapSession chan with
        | (.ok, chan1, bootSent) =>
            match m with
            | .notification mth ps =>
                { outcome := .response 202 (.text "Accepted"),
                  sent := bootSent ++ [.notification mth ps], chan := chan1,
                  readWriterClosed := true, writeReaderClosed := true }
            | m' =>
                match chan1.recv with
                | (.msg r, chan2) =>
                    { outcome := .response 200 (.json (Msg.dump r true)),
                      sent := bootSent ++ [m'], chan := chan2,
                      readWriterClosed := true, writeReaderClosed := true }
                | (.endOfStream, chan2) =>
                    { outcome := .exn, sent := bootSent ++ [m'],
                      chan := chan2,
                      readWriterClosed := true, writeReaderClosed := true }
                | (.blocks, chan2) =>
                    { outcome := .hangs, sent := bootSent ++ [m'],
                      chan := chan2,
                      readWriterClosed := false, writeReaderClosed := false }
        | (.endOfStream, chan1, bootSent) =>
            { outcome := .exn, sent := bootSent, chan := chan1,
              readWriterClosed := true, writeReaderClosed := true }
        | (.blocks, chan1, bootSent) =>
            { outcome := .hangs, sent := bootSent, chan := chan1,
              readWriterClosed := false, writeReaderClosed := false }

/-- Error raised by using a memory stream end after closing it. -/
inductive StreamUse where
  | closedResource

/-- A send attempted on `read_stream_writer` after the handler finished:
anyio raises `ClosedResourceError` when that end was closed. -/
def sendAfterHandler (r : HandlerResult) : Except StreamUse Unit :=
  if r.readWriterClosed then .error .closedResource else .ok ()

/-- A receive attempted on `write_stream_reader` after the handler
finished: anyio raises `ClosedResourceError` when that end was closed. -/
def receiveAfterHandler (r : HandlerResult) : Except StreamUse Unit :=
  if r.writeReaderClosed then .error .closedResource else .ok ()

/-- Case-insensitive header lookup, the semantics of starlette's
`Headers.get`: the first entry whose name matches up to ASCII case
(compared character by character after lowering). -/
def headerGet (hs : List (String × String)) (name : String) : Option String :=
  (hs.find? fun p =>
    p.fst.data.map Char.toLower == name.data.map Char.toLower).map Prod.snd

/-- Modelled from the spec: the tool-enablement configuration
(`GrafanaSettings.tools`, defined in `settings.py` which is not among the
sources). The spec calls it "toolConfig: immutable struct inherited from
process defaults"; the middleware never inspects it, only copies it, so its
fields are opaque here. -/
structure ToolSettings where
  flags : List (String × Bool)
deriving DecidableEq

/-- Modelled from the spec: `GrafanaSettings` (`settings.py` is not among
the sources). Its fields are exactly those passed at the construction
sites in `transports/http.py` and `middleware.py`: the upstream url, three
optional credentials, and the tool configuration. -/
structure GrafanaSettings where
  url : String
  api_key : Option String
  access_token : Option String
  id_token : Option String
  tools : ToolSettings
deriving DecidableEq

/-- Modelled from the spec: `GrafanaClient` (`client.py` is not among the
sources). Per the spec, upstream calls go to the context's base URL
carrying whichever credential the context holds, so the client built by
`GrafanaClient.from_settings` is determined by those settings fields. -/
structure GrafanaClient where
  url : String
  api_key : Option String
  access_token : Option String
  id_token : Option String
deriving DecidableEq

/-- Modelled from the spec: `GrafanaClient.from_settings`. -/
def GrafanaClient.from_settings (s : GrafanaSettings) : GrafanaClient :=
  { url := s.url, api_key := s.api_key,
    access_token := s.access_token, id_token := s.id_token }

/-- The values of the two context variables `grafana_settings` and
`grafana_client` in the current task's context. -/
structure CtxState where
  settings : GrafanaSettings
  client : GrafanaClient
deriving DecidableEq

/-- The token returned by `ContextVar.set`: it captures the value the
variable had at the time of the set. -/
structure CtxToken (α : Type) where
  old : α
deriving DecidableEq

/-- `ContextVar.set`: the variable takes the new value; the returned token
remembers the previous one. -/
def ContextVar.set (cur new : α) : α × CtxToken α := (new, ⟨cur⟩)

/-- `ContextVar.reset(token)`: the variable reverts to the value captured
by the token. -/
def ContextVar.reset (tok : CtxToken α) : α := tok.old

/-- The `GrafanaInfo` dataclass of `transports/http.py`: the upstream URL
and three optional credentials extracted from request headers. -/
structure GrafanaInfo where
  url : String
  access_token : Option String
  id_token : Option String
  api_key : Option String
deriving DecidableEq

/-- `GrafanaInfo.from_headers` of `transports/http.py`: `None` unless the
`X-Grafana-URL` header is present; the three credential headers are each
optional and never required. -/
def GrafanaInfo.from_headers (headers : List (String × String)) :
    Option GrafanaInfo :=
  match headerGet headers "X-Grafana-URL" with
  | none => none
  | some url =>
      some { url := url,
             api_key := headerGet headers "X-Grafana-API-Key",
             access_token := headerGet headers "X-Access-Token",
             id_token := headerGet headers "X-Grafana-Id" }

/-- The parts of an ASGI scope the auth middleware consults: its type and
the request headers. -/
structure AsgiScope where
  type : String
  headers : List (String × String)
deriving DecidableEq

/-- How the wrapped ASGI application ends: normally, with an exception, or
cancelled. The middleware's `finally` runs in all three cases. -/
inductive AppOutcome where
  | ok
  | appError (detail : String)
  | cancelled
deriving DecidableEq

/-- The observable effects of one `GrafanaAuthMiddleware.__call__`: the
context-variable state the wrapped app runs under, the app's outcome
(propagated unchanged), and the context-variable state after the
middleware returns. -/
structure CallResult where
  appCtx : CtxState
  outcome : AppOutcome
  finalCtx : CtxState
deriving DecidableEq

/-- Embedding of `GrafanaAuthMiddleware.__call__` of `transports/http.py`.
For an http scope whose headers yield a `GrafanaInfo`, it builds new
settings overlaying the extracted URL and credentials on the current
settings' tool configuration, sets both context variables (keeping the
reset tokens), runs the app, and in a `finally` resets both variables via
their tokens. For an http scope without the URL header, and for every
non-http scope, it invokes the app with the context untouched. The
wrapped app's outcome (`appOutcome`) is an input since the app is an
external collaborator; the middleware propagates it unchanged. -/
def GrafanaAuthMiddleware.call (scope : AsgiScope) (st : CtxState)
    (appOutcome : AppOutcome) : CallResult :=
  if scope.type = "http" then
    match GrafanaInfo.from_headers scope.headers with
    | some info =>
        let newSettings : GrafanaSettings :=
          { url := info.url, api_key := info.api_key,
            access_token := info.access_token, id_token := info.id_token,
            tools := st.settings.tools }
        let setS := ContextVar.set st.settings newSettings
        let setC := ContextVar.set st.client
          (GrafanaClient.from_settings newSettings)
        { appCtx := { settings := setS.fst, client := setC.fst },
          outcome := appOutcome,
          finalCtx := { settings := ContextVar.reset setS.snd,
                        client := ContextVar.reset setC.snd } }
    | none => { appCtx := st, outcome := appOutcome, finalCtx := st }
  else { appCtx := st, outcome := appOutcome, finalCtx := st }

namespace Middleware

/-- The `GrafanaInfo` dataclass of `middleware.py`: unlike the one in
`transports/http.py` it holds a mandatory API key and the URL. -/
structure GrafanaInfo where
  api_key : String
  url : String
deriving DecidableEq

/-- `GrafanaInfo.from_headers` of `middleware.py`: requires both the
`X-Grafana-URL` and the `X-Grafana-API-Key` headers; any other credential
header does not count. -/
def GrafanaInfo.from_headers (headers : List (String × String)) :
    Option GrafanaInfo :=
  match headerGet headers "X-Grafana-URL",
        headerGet headers "X-Grafana-API-Key" with
  | some url, some key => some { api_key := key, url := url }
  | _, _ => none

/-- Outcome of `GrafanaMiddleware.__aenter__` of `middleware.py`: both
context variables set (the state the body then runs under), an
`HTTPException` raised, or nothing set. -/
inductive EnterResult where
  | active (appCtx : CtxState)
  | httpException (status : Nat) (detail : String)
  | unset
deriving DecidableEq

/-- Embedding of `GrafanaMiddleware.__aenter__`: when both required
headers are present, overlay them (access and id token fields are not
passed at this construction site) on the current settings' tools and set
both context variables; otherwise raise a 403 `HTTPException` when
`fail_if_unset` (the default), else leave everything unset. -/
def GrafanaMiddleware.aenter (headers : List (String × String))
    (failIfUnset : Bool) (st : CtxState) : EnterResult :=
  match GrafanaInfo.from_headers headers with
  | some info =>
      let newSettings : GrafanaSettings :=
        { url := info.url, api_key := some info.api_key,
          access_token := none, id_token := none,
          tools := st.settings.tools }
      .active { settings := newSettings,
                client := GrafanaClient.from_settings newSettings }
  | none =>
      if failIfUnset then .httpException 403 "No Grafana settings found."
      else .unset

/-- A whole `async with GrafanaMiddleware(request)` block: `__aenter__`,
then the body (whose outcome, like the app's above, is an input), then
`__aexit__`, which resets each context variable whose token was stored.
The pair is the entered state (for the claims about activation) and the
context after exit. -/
def GrafanaMiddleware.run (headers : List (String × String))
    (failIfUnset : Bool) (st : CtxState) : EnterResult × CtxState :=
  match GrafanaMiddleware.aenter headers failIfUnset st with
  | .active appCtx =>
      let setS := ContextVar.set st.settings appCtx.settings
      let setC := ContextVar.set st.client appCtx.client
      (.active appCtx, { settings := ContextVar.reset setS.snd,
                         client := ContextVar.reset setC.snd })
  | e => (e, st)

end Middleware

/-- Identifier of one of two concurrent request-handling tasks. -/
inductive Tid where
  | t1
  | t2
deriving DecidableEq

/-- One atomic step of a request task between event-loop suspension
points: `enter` is the middleware's context-variable set on entry,
`toolCall` is one tool invocation reading the current task's
`grafana_settings` to choose its upstream, `leave` is the middleware's
`finally` reset. -/
inductive Step where
  | enter
  | toolCall
  | leave
deriving DecidableEq

/-- The step sequence of one request that triggers `k` tool calls:
middleware entry, the tool calls, middleware reset. -/
def requestProg (k : Nat) : List Step :=
  Step.enter :: (List.replicate k Step.toolCall ++ [Step.leave])

/-- The task-local state of one request task: the values of its context
variables, the prior value captured by the set tokens, and the steps it
has yet to run. Context variables are task-local (each asyncio task runs
in its own context copy), so two tasks have two such states. -/
structure TaskState where
  ctx : CtxState
  saved : CtxState
  rest : List Step

/-- The headers binding a request to the upstream at `url`. -/
def backendHeaders (url : String) : List (String × String) :=
  [("X-Grafana-URL", url)]

/-- The context the middleware of `transports/http.py` establishes for a
request bound to `url`: exactly the `appCtx` of
`GrafanaAuthMiddleware.call` on those headers. -/
def activate (url : String) (st : CtxState) : CtxState :=
  (GrafanaAuthMiddleware.call ⟨"http", backendHeaders url⟩ st .ok).appCtx

/-- Run one step of the task bound to `url`: `enter` activates the
context saving the prior value, `toolCall` observes the upstream URL the
tool would reach (`grafana_settings.get().url`), `leave` resets via the
token. A finished task takes no step. -/
def execStep (url : String) (ts : TaskState) : TaskState × Option String :=
  match ts.rest with
  | [] => (ts, none)
  | Step.enter :: r =>
      ({ ctx := activate url ts.ctx, saved := ts.ctx, rest := r }, none)
  | Step.toolCall :: r =>
      ({ ts with rest := r }, some ts.ctx.settings.url)
  | Step.leave :: r =>
      ({ ts with ctx := ts.saved, rest := r }, none)

/-- Run two request tasks under an arbitrary interleaving `sched` (the
event loop picks which task runs its next step), collecting every tool
call's observed upstream as `(task, url)` in execution order. Task `t1`
is bound to backend `a`, task `t2` to backend `b`; each task only ever
touches its own task-local context. -/
def runSched (sched : List Tid) (a b : String) (ts1 ts2 : TaskState) :
    List (Tid × String) :=
  match sched with
  | [] => []
  | Tid.t1 :: s =>
      let step := execStep a ts1
      (match step.snd with
       | some u => [(Tid.t1, u)]
       | none => []) ++ runSched s a b step.fst ts2
  | Tid.t2 :: s =>
      let step := execStep b ts2
      (match step.snd with
       | some u => [(Tid.t2, u)]
       | none => []) ++ runSched s a b ts1 step.fst

/-- Invariant of one task bound to `url`: it has not yet entered, or it is
inside the request with its context variable pointing at `url`, or it is
done. -/
def TaskInv (url : String) (ts : TaskState) : Prop :=
  (∃ k, ts.rest = requestProg k) ∨
  ((∃ j, ts.rest = List.replicate j Step.toolCall ++ [Step.leave]) ∧
    ts.ctx.settings.url = url) ∨
  ts.rest = []

/-- A concrete tool configuration for witnesses. -/
def exampleTools : ToolSettings := ⟨[("search", true), ("datasources", true)]⟩

/-- Concrete process-default settings for witnesses. -/
def defaultSettings : GrafanaSettings :=
  { url := "http://localhost:3000", api_key := none,
    access_token := none, id_token := none, tools := exampleTools }

/-- Concrete default context-variable state for witnesses. -/
def defaultCtx : CtxState :=
  { settings := defaultSettings,
    client := GrafanaClient.from_settings defaultSettings }

/-- A concrete handshake acknowledgment for counterexamples. -/
def sampleAck : Msg := .response 1 (Json.obj [])

/-- A concrete tool-call request for counterexamples. -/
def sampleToolRequest : Msg :=
  .request 2 "tools/call" (some (Json.obj [("name", Json.str "list_datasources")]))

/-- C2: for every schema-validated message posted to the RPC endpoint, a
Notification gets HTTP 202 with plain-text body "Accepted" and no further
engine reply is consumed beyond the bootstrap acknowledgment (the rest of
the reply queue is untouched); any Request blocks for exactly one message
on the engine-to-client channel and gets HTTP 200 whose JSON body is that
message dumped with null-valued fields omitted (`Msg.dump · true`). -/
theorem message_kind_responses (mth : String) (ps : Option Json) (id : Int)
    (rps : Option Json) (ack r : Msg) (rest : List Msg) (c : Bool) :
    handlePostMessage postScope (.valid (.notification mth ps)) ⟨ack :: rest, c⟩
      = { outcome := .response 202 (.text "Accepted"),
          sent := [bootstrapRequestMsg, initializedNotificationMsg,
                   .notification mth ps],
          chan := ⟨rest, c⟩,
          readWriterClosed := true, writeReaderClosed := true }
    ∧ handlePostMessage postScope (.valid (.request id mth rps))
        ⟨ack :: r :: rest, c⟩
      = { outcome := .response 200 (.json (Msg.dump r true)),
          sent := [bootstrapRequestMsg, initializedNotificationMsg,
                   .request id mth rps],
          chan := ⟨rest, c⟩,
          readWriterClosed := true, writeReaderClosed := true } :=
  ⟨rfl, rfl⟩

/-- C3, counterexample: with a valid Request and an engine that closed the
reply channel after acknowledging the handshake, the blocking receive
raises end-of-stream and the handler lets the exception propagate
(`Outcome.exn`); since `Outcome.exn` is a different constructor from
`Outcome.response`, no HTTP response at all — in particular no
5xx-equivalent one — is produced by the adapter, contrary to the claim. -/
theorem engine_failure_no_5xx_counterexample :
    (handlePostMessage postScope (.valid sampleToolRequest)
        ⟨[sampleAck], true⟩).outcome = Outcome.exn := rfl

/-- C3, amended: when the engine task's failure closes the reply channel,
the adapter's blocking receive surfaces it as an end-of-stream error
rather than a hang (with the channel merely empty but open, it would
hang), and the handler propagates that error as an exception while its
`finally` still closes both adapter stream ends; the adapter itself never
translates it into a 5xx response. -/
theorem engine_failure_surfaces_error (id : Int) (mth : String)
    (ps : Option Json) (ack : Msg) :
    handlePostMessage postScope (.valid (.request id mth ps)) ⟨[ack], true⟩
      = { outcome := .exn,
          sent := [bootstrapRequestMsg, initializedNotificationMsg,
                   .request id mth ps],
          chan := ⟨[], true⟩,
          readWriterClosed := true, writeReaderClosed := true }
    ∧ handlePostMessage postScope (.valid (.request id mth ps)) ⟨[], true⟩
      = { outcome := .exn, sent := [bootstrapRequestMsg], chan := ⟨[], true⟩,
          readWriterClosed := true, writeReaderClosed := true }
    ∧ (handlePostMessage postScope (.valid (.request id mth ps))
        ⟨[ack], false⟩).outcome = Outcome.hangs :=
  ⟨rfl, rfl, rfl⟩

/-- C5: for every validated client message the adapter first sends the
initialize request (fixed correlation id 1, method "initialize", params
carrying protocol version, capabilities and client identity), consumes and
discards exactly one reply from the engine-to-client channel, then sends
the initialized notification without awaiting anything, and only then
forwards the client's message — the send trace is exactly
`[bootstrapRequestMsg, initializedNotificationMsg, m]`, and the discarded
reply appears in no response. -/
theorem bootstrap_precedes_forwarding (m ack : Msg) (rest : List Msg)
    (c : Bool) :
    (handlePostMessage postScope (.valid m) ⟨ack :: rest, c⟩).sent
        = [bootstrapRequestMsg, initializedNotificationMsg, m]
    ∧ bootstrapRequestMsg = Msg.request 1 "initialize" (some bootstrapParams)
    ∧ initializedNotificationMsg
        = Msg.notification "notifications/initialized" none
    ∧ bootstrapSession ⟨ack :: rest, c⟩
        = (.ok, ⟨rest, c⟩, [bootstrapRequestMsg, initializedNotificationMsg]) := by
  refine ⟨?_, rfl, rfl, rfl⟩
  cases m <;> cases rest <;> cases c <;> rfl

/-- C6: a body that fails to parse, or parses but fails ProtocolMessage
validation, yields HTTP 400 (the validation failure's body includes the
error text); in both cases nothing is sent on the request's streams and no
engine reply is consumed — the bootstrap handshake is never started. -/
theorem malformed_body_rejected (err : String) (chan : EngineChan) :
    handlePostMessage postScope .parseError chan
      = { outcome := .response 400 (.text "Could not parse message"),
          sent := [], chan := chan,
          readWriterClosed := true, writeReaderClosed := true }
    ∧ handlePostMessage postScope (.invalid err) chan
      = { outcome := .response 400 (.text ("Invalid message: " ++ err)),
          sent := [], chan := chan,
          readWriterClosed := true, writeReaderClosed := true } :=
  ⟨rfl, rfl⟩

/-- C9: the bootstrap discards the first message arriving on the
engine-to-client channel unconditionally: whatever message stands there —
any kind, any correlation id — the bootstrap completes identically,
consuming exactly that message; its result never depends on it. -/
theorem bootstrap_discard_unconditional (m1 m2 : Msg) (rest : List Msg)
    (c : Bool) :
    bootstrapSession ⟨m1 :: rest, c⟩
        = (.ok, ⟨rest, c⟩, [bootstrapRequestMsg, initializedNotificationMsg])
    ∧ bootstrapSession ⟨m1 :: rest, c⟩ = bootstrapSession ⟨m2 :: rest, c⟩ :=
  ⟨rfl, rfl⟩

/-- Every run of the handler either blocks forever on a receive (its
`finally` is then never reached) or has closed both adapter stream ends. -/
theorem handler_branch_closes (scope : HttpScope) (body : BodyOutcome)
    (chan : EngineChan) :
    (handlePostMessage scope body chan).outcome = Outcome.hangs ∨
      ((handlePostMessage scope body chan).readWriterClosed = true ∧
       (handlePostMessage scope body chan).writeReaderClosed = true) := by
  unfold handlePostMessage
  repeat' split
  all_goals simp

/-- C7: on every exit path of the handler — success, the early 405, 404
and 400 rejections, or an exception — both of the adapter's stream ends
(`read_stream_writer` and `write_stream_reader`) are closed by the
`finally`, and a subsequent send or receive on them raises the
closed-stream error. -/
theorem teardown_closes_both_ends (scope : HttpScope) (body : BodyOutcome)
    (chan : EngineChan)
    (h : (handlePostMessage scope body chan).outcome ≠ Outcome.hangs) :
    (handlePostMessage scope body chan).readWriterClosed = true
    ∧ (handlePostMessage scope body chan).writeReaderClosed = true
    ∧ sendAfterHandler (handlePostMessage scope body chan)
        = .error .closedResource
    ∧ receiveAfterHandler (handlePostMessage scope body chan)
        = .error .closedResource := by
  obtain hc | ⟨h1, h2⟩ := handler_branch_closes scope body chan
  · exact absurd hc h
  · exact ⟨h1, h2, by simp [sendAfterHandler, h1],
      by simp [receiveAfterHandler, h2]⟩

/-- Witness for C7 at a concrete early-return input: a GET request is
rejected with 405 and both stream ends are closed. -/
theorem teardown_closes_both_ends_witness :
    (handlePostMessage ⟨"GET", "/mcp"⟩ .parseError ⟨[], false⟩).readWriterClosed
        = true
    ∧ (handlePostMessage ⟨"GET", "/mcp"⟩ .parseError ⟨[], false⟩).writeReaderClosed
        = true
    ∧ sendAfterHandler (handlePostMessage ⟨"GET", "/mcp"⟩ .parseError ⟨[], false⟩)
        = .error .closedResource
    ∧ receiveAfterHandler
        (handlePostMessage ⟨"GET", "/mcp"⟩ .parseError ⟨[], false⟩)
        = .error .closedResource :=
  teardown_closes_both_ends ⟨"GET", "/mcp"⟩ .parseError ⟨[], false⟩
    (fun h => Outcome.noConfusion h)

/-- C4, counterexample: the SSE middleware, in its fail-closed default,
rejects with 403 a request whose headers carry the URL header and an
accepted credential variant (the access token) but no API key — so a
present URL header does not suffice for the Active transition, and
"at least one credential header of the accepted variants" is not what the
code requires; meanwhile the HTTP-transport middleware activates on the
URL header alone, with no credential header at all. -/
theorem header_requirements_counterexample :
    Middleware.GrafanaMiddleware.aenter
        [("X-Grafana-URL", "http://a.example"), ("X-Access-Token", "tok")]
        true defaultCtx
      = .httpException 403 "No Grafana settings found."
    ∧ GrafanaInfo.from_headers [("X-Grafana-URL", "http://a.example")]
      = some { url := "http://a.example", access_token := none,
               id_token := none, api_key := none } :=
  ⟨rfl, rfl⟩

/-- C4, amended: the HTTP-transport middleware requires only the
upstream-URL header — if it is present the context becomes Active bound to
that URL (each of the three credential headers independently optional,
possibly all absent), and if it is absent the context stays Unset with the
app invoked on the untouched defaults; the SSE middleware requires both the
URL header and specifically the API-key header, rejecting with 403 in the
fail-closed configuration exactly when either is missing, and leaving the
context Unset (never raising) when not fail-closed; in every case the
middleware yields a defined outcome — missing credentials never crash. -/
theorem header_requirements_amended (headers : List (String × String))
    (st : CtxState) (appOutcome : AppOutcome) :
    (∀ u, headerGet headers "X-Grafana-URL" = some u →
      (GrafanaAuthMiddleware.call ⟨"http", headers⟩ st appOutcome).appCtx.settings.url
        = u)
    ∧ (headerGet headers "X-Grafana-URL" = none →
      GrafanaAuthMiddleware.call ⟨"http", headers⟩ st appOutcome
        = { appCtx := st, outcome := appOutcome, finalCtx := st })
    ∧ (Middleware.GrafanaMiddleware.aenter headers true st
        = .httpException 403 "No Grafana settings found."
      ↔ (headerGet headers "X-Grafana-URL" = none
         ∨ headerGet headers "X-Grafana-API-Key" = none))
    ∧ (∀ status detail, Middleware.GrafanaMiddleware.aenter headers false st
        ≠ .httpException status detail) := by
  refine ⟨?_, ?_, ?_, ?_⟩
  · intro u hu
    simp [GrafanaAuthMiddleware.call, GrafanaInfo.from_headers, hu,
      ContextVar.set]
  · intro hu
    simp [GrafanaAuthMiddleware.call, GrafanaInfo.from_headers, hu]
  · cases hu : headerGet headers "X-Grafana-URL" <;>
      cases hk : headerGet headers "X-Grafana-API-Key" <;>
        simp [Middleware.GrafanaMiddleware.aenter,
          Middleware.GrafanaInfo.from_headers, hu, hk]
  · intro status detail
    cases hu : headerGet headers "X-Grafana-URL" <;>
      cases hk : headerGet headers "X-Grafana-API-Key" <;>
        simp [Middleware.GrafanaMiddleware.aenter,
          Middleware.GrafanaInfo.from_headers, hu, hk]

/-- Witness for C4's amended theorem at concrete inputs: a lone URL header
activates the HTTP-transport middleware at that URL, and the same lone URL
header makes the fail-closed SSE middleware reject with 403. -/
theorem header_requirements_amended_witness :
    (GrafanaAuthMiddleware.call
        ⟨"http", [("X-Grafana-URL", "http://a.example")]⟩ defaultCtx
        .ok).appCtx.settings.url = "http://a.example"
    ∧ Middleware.GrafanaMiddleware.aenter
        [("X-Grafana-URL", "http://a.example")] true defaultCtx
      = .httpException 403 "No Grafana settings found." :=
  ⟨(header_requirements_amended [("X-Grafana-URL", "http://a.example")]
      defaultCtx .ok).1 "http://a.example" rfl,
   (header_requirements_amended [("X-Grafana-URL", "http://a.example")]
      defaultCtx .ok).2.2.1.mpr (Or.inr rfl)⟩

/-- A whole SSE middleware block leaves the context variables exactly as
they were, whichever way entry went. -/
theorem middleware_run_resets (headers : List (String × String))
    (failIfUnset : Bool) (st : CtxState) :
    (Middleware.GrafanaMiddleware.run headers failIfUnset st).snd = st := by
  unfold Middleware.GrafanaMiddleware.run
  repeat' split
  all_goals rfl

/-- C8: when the middleware activates a context, the new settings overlay
exactly the extracted URL and credentials on the previous settings, with
the tool configuration inherited unchanged; the client is rebuilt from
those new settings; the wrapped app's outcome — success, error or
cancellation — passes through unchanged; and afterwards both context
variables are back at their prior values via the set tokens, for the
HTTP-transport middleware and for the SSE middleware block alike. -/
theorem overlay_and_scoped_reset (headers : List (String × String))
    (st : CtxState) (appOutcome : AppOutcome) (info : GrafanaInfo)
    (h : GrafanaInfo.from_headers headers = some info) :
    (GrafanaAuthMiddleware.call ⟨"http", headers⟩ st appOutcome).appCtx.settings
        = { url := info.url, api_key := info.api_key,
            access_token := info.access_token, id_token := info.id_token,
            tools := st.settings.tools }
    ∧ (GrafanaAuthMiddleware.call ⟨"http", headers⟩ st appOutcome).appCtx.client
        = GrafanaClient.from_settings
            (GrafanaAuthMiddleware.call ⟨"http", headers⟩ st
              appOutcome).appCtx.settings
    ∧ (GrafanaAuthMiddleware.call ⟨"http", headers⟩ st appOutcome).finalCtx = st
    ∧ (GrafanaAuthMiddleware.call ⟨"http", headers⟩ st appOutcome).outcome
        = appOutcome
    ∧ (Middleware.GrafanaMiddleware.run headers true st).snd = st
    ∧ (Middleware.GrafanaMiddleware.run headers false st).snd = st := by
  refine ⟨?_, ?_, ?_, ?_, middleware_run_resets headers true st,
    middleware_run_resets headers false st⟩ <;>
    simp [GrafanaAuthMiddleware.call, h, ContextVar.set, ContextVar.reset,
      GrafanaClient.from_settings]

/-- Witness for C8 at concrete headers carrying a URL and an API key: the
activated settings overlay them on the default tools, and the context is
restored afterwards. -/
theorem overlay_and_scoped_reset_witness :
    (GrafanaAuthMiddleware.call
        ⟨"http", [("X-Grafana-URL", "http://a.example"),
                  ("X-Grafana-API-Key", "k")]⟩ defaultCtx
        (.appError "boom")).appCtx.settings
      = { url := "http://a.example", api_key := some "k",
          access_token := none, id_token := none,
          tools := defaultCtx.settings.tools }
    ∧ (GrafanaAuthMiddleware.call
        ⟨"http", [("X-Grafana-URL", "http://a.example"),
                  ("X-Grafana-API-Key", "k")]⟩ defaultCtx
        (.appError "boom")).finalCtx = defaultCtx :=
  ⟨(overlay_and_scoped_reset _ defaultCtx (.appError "boom")
      { url := "http://a.example", access_token := none, id_token := none,
        api_key := some "k" } (by decide)).1,
   (overlay_and_scoped_reset _ defaultCtx (.appError "boom")
      { url := "http://a.example", access_token := none, id_token := none,
        api_key := some "k" } (by decide)).2.2.1⟩

/-- C10: for every ASGI scope whose type is not "http" the credential
middleware invokes the wrapped application with the context variables
untouched and restores nothing afterwards; its behavior is independent of
whatever headers the scope carries, so only HTTP requests can activate a
credential context. -/
theorem non_http_scope_passthrough (t : String) (h : t ≠ "http")
    (headers1 headers2 : List (String × String)) (st : CtxState)
    (appOutcome : AppOutcome) :
    GrafanaAuthMiddleware.call ⟨t, headers1⟩ st appOutcome
        = { appCtx := st, outcome := appOutcome, finalCtx := st }
    ∧ GrafanaAuthMiddleware.call ⟨t, headers1⟩ st appOutcome
        = GrafanaAuthMiddleware.call ⟨t, headers2⟩ st appOutcome := by
  constructor <;> simp [GrafanaAuthMiddleware.call, h]

/-- Witness for C10: a websocket scope carrying credential headers passes
through with the default context untouched. -/
theorem non_http_scope_passthrough_witness :
    GrafanaAuthMiddleware.call
        ⟨"websocket", [("X-Grafana-URL", "http://a.example")]⟩ defaultCtx .ok
      = { appCtx := defaultCtx, outcome := .ok, finalCtx := defaultCtx } :=
  (non_http_scope_passthrough "websocket" (by decide)
    [("X-Grafana-URL", "http://a.example")] [] defaultCtx .ok).1

/-- The context the middleware activates for a request bound to `url`
points its settings at `url`. -/
theorem activate_url (url : String) (st : CtxState) :
    (activate url st).settings.url = url := rfl

/-- One step of a request task bound to `url` preserves the task
invariant, and any tool-call observation it emits is `url`. -/
theorem execStep_inv (url : String) (ts : TaskState) (h : TaskInv url ts) :
    TaskInv url (execStep url ts).fst ∧
      ∀ u, (execStep url ts).snd = some u → u = url := by
  obtain ⟨ctx, saved, rest⟩ := ts
  rcases h with ⟨k, hk⟩ | ⟨⟨j, hj⟩, hurl⟩ | hdone
  · simp only [requestProg] at hk
    subst hk
    refine ⟨Or.inr (Or.inl ⟨⟨k, rfl⟩, activate_url url ctx⟩), ?_⟩
    intro u hu
    simp [execStep] at hu
  · cases j with
    | zero =>
        simp only [List.replicate, List.nil_append] at hj
        subst hj
        refine ⟨Or.inr (Or.inr rfl), ?_⟩
        intro u hu
        simp [execStep] at hu
    | succ j' =>
        simp only [List.replicate, List.cons_append] at hj
        subst hj
        refine ⟨Or.inr (Or.inl ⟨⟨j', rfl⟩, hurl⟩), ?_⟩
        intro u hu
        simp only [execStep, Option.some.injEq] at hu
        exact hu ▸ hurl
  · subst hdone
    exact ⟨Or.inr (Or.inr rfl), by intro u hu; simp [execStep] at hu⟩

/-- Under every interleaving, each task's tool calls observe only that
task's own backend: the task-local contexts never leak across tasks. -/
theorem runSched_isolated (sched : List Tid) (a b : String) :
    ∀ ts1 ts2 : TaskState, TaskInv a ts1 → TaskInv b ts2 →
      ∀ p ∈ runSched sched a b ts1 ts2,
        (p.fst = Tid.t1 → p.snd = a) ∧ (p.fst = Tid.t2 → p.snd = b) := by
  induction sched with
  | nil =>
      intro ts1 ts2 h1 h2 p hp
      simp [runSched] at hp
  | cons t s ih =>
      intro ts1 ts2 h1 h2 p hp
      cases t with
      | t1 =>
          obtain ⟨inv', hobs⟩ := execStep_inv a ts1 h1
          simp only [runSched] at hp
          rcases List.mem_append.mp hp with hm | hm
          · cases ho : (execStep a ts1).snd with
            | none => rw [ho] at hm; simp at hm
            | some u =>
                rw [ho] at hm
                simp at hm
                subst hm
                have hu := hobs u ho
                subst hu
                exact ⟨fun _ => rfl, fun hcon => Tid.noConfusion hcon⟩
          · exact ih (execStep a ts1).fst ts2 inv' h2 p hm
      | t2 =>
          obtain ⟨inv', hobs⟩ := execStep_inv b ts2 h2
          simp only [runSched] at hp
          rcases List.mem_append.mp hp with hm | hm
          · cases ho : (execStep b ts2).snd with
            | none => rw [ho] at hm; simp at hm
            | some u =>
                rw [ho] at hm
                simp at hm
                subst hm
                have hu := hobs u ho
                subst hu
                exact ⟨fun hcon => Tid.noConfusion hcon, fun _ => rfl⟩
          · exact ih ts1 (execStep b ts2).fst h1 inv' p hm

/-- C1: two concurrent requests whose headers bind them to backends `a`
and `b` keep their credential contexts in task-local context variables,
so under an arbitrary interleaving of their steps every tool invocation
of the first request observes backend `a` exclusively and every tool
invocation of the second observes backend `b` exclusively, whatever the
initial context of each task and however many tool calls each makes. -/
theorem concurrent_request_isolation (sched : List Tid) (k1 k2 : Nat)
    (a b : String) (st1 st2 : CtxState) :
    ∀ p ∈ runSched sched a b ⟨st1, st1, requestProg k1⟩
        ⟨st2, st2, requestProg k2⟩,
      (p.fst = Tid.t1 → p.snd = a) ∧ (p.fst = Tid.t2 → p.snd = b) :=
  runSched_isolated sched a b _ _ (Or.inl ⟨k1, rfl⟩) (Or.inl ⟨k2, rfl⟩)

/-- Witness for C1 on a concrete interleaving of two overlapping requests
bound to distinct backends: the first task's tool call is observed, and by
the theorem it reaches backend `a`. -/
theorem concurrent_request_isolation_witness :
    (Tid.t1, "http://a.example")
        ∈ runSched [Tid.t1, Tid.t2, Tid.t1, Tid.t2, Tid.t1, Tid.t2]
          "http://a.example" "http://b.example"
          ⟨defaultCtx, defaultCtx, requestProg 1⟩
          ⟨defaultCtx, defaultCtx, requestProg 1⟩
    ∧ (Tid.t1, "http://a.example").snd = "http://a.example" :=
  ⟨by decide,
   (concurrent_request_isolation [Tid.t1, Tid.t2, Tid.t1, Tid.t2, Tid.t1, Tid.t2]
      1 1 "http://a.example" "http://b.example" defaultCtx defaultCtx
      (Tid.t1, "http://a.example") (by decide)).1 rfl⟩
